import Mathlib

/-!
# Business-trip list-view controllers

A shallow embedding of the three client-side controllers of the business-trip
module:

* `custom_trip_form_request.js`: the request-type dialog controller
  (`RequestType`),
* `custom_trip_redirect copy.js`: the row-click controller, earlier variant
  (`VariantA`),
* `custom_trip_redirect.js`: the row-click controller, later variant
  (`VariantB`).

JavaScript values are a JSON-like datatype. Numbers are the integer-valued
doubles, the two infinities and `NaN`; `num n` stands for the double whose
value is the integer `n` (an `n` that is no double stands for no value), `-0`
is identified with `0`, and fractional values are outside the model. Printing
and parsing follow the language: `parseInt` rounds to the nearest double, and
a number is printed with the fewest digits that read back as the same double,
in exponent notation from `1e21` on.

The handlers run against a `World`: the dialog elements appended to the
document body, each with the visibility the modal plugin gives it, and the
ordered log of outward effects (event consumption, remote calls, assignments
to `window.location.href`, `do_action` dispatches). The host framework is
taken as given: `this.model.get` hands the handler a value, a remote call
resolves to a list of records or to no value, or is rejected, and
`modal('hide')` hides an element without detaching it. A callback attached
with `.then` is a function of its own here, and `rowClick` chains the
callbacks of one click in the order the promises resolve.
-/

namespace BusinessTrip

/-! ## JavaScript values -/

/-- JavaScript values, as far as the controllers handle them. -/
inductive JSVal where
  | undefined
  | null
  | bool (b : Bool)
  | num (n : Int)
  | infinity (negative : Bool)
  | nan
  | str (s : String)
  | arr (xs : List JSVal)
  | obj (fields : List (String × JSVal))

/-- The only exception the handlers can raise: reading a property of
`undefined` or `null`. -/
inductive JSError where
  | typeError

/-! ## Numbers as doubles -/

/-- Smallest power of two `p`, found by doubling the given one within the
fuel, with `m / p < 2 ^ 53`: the spacing of the doubles around `m`. -/
def binaryScale : Nat → Nat → Nat → Option Nat
  | 0, _, _ => none
  | fuel + 1, m, p =>
    if m / p < 9007199254740992 then some p else binaryScale fuel m (2 * p)

/-- The number `2 ^ 1024`, the first power of two beyond the doubles. -/
def doubleLimit : Nat :=
  2 ^ 256 * 2 ^ 256 * 2 ^ 256 * 2 ^ 256

/-- The double nearest to the natural number `m`, ties going to the even
significand; `none` when the result is beyond the largest double. -/
def roundToDouble (m : Nat) : Option Nat :=
  if m < 9007199254740992 then some m
  else
    match binaryScale 972 m 1 with
    | none => none
    | some p =>
      let q := m / p
      let r := m % p
      let q1 := if 2 * r > p || (2 * r == p && q % 2 == 1) then q + 1 else q
      if q1 * p ≥ doubleLimit then none else some (q1 * p)

/-- Searches the largest power of ten with a multiple inside the rounding
interval of the double `x` (bounds `lo` and `hi`, doubled, included when
`closed`), going up from `unit`, twice the power of `best`; returns the
multiplier nearest to `x`, the even one on a tie, and the exponent. -/
def growScale : Nat → Nat → Nat → Nat → Bool → Nat → Nat × Nat → Nat × Nat
  | 0, _, _, _, _, _, best => best
  | fuel + 1, x, lo, hi, closed, unit, best =>
    let unit1 := 10 * unit
    let cMin := if closed then (lo + unit1 - 1) / unit1 else lo / unit1 + 1
    let cMax := if closed then hi / unit1 else (hi - 1) / unit1
    if cMin ≤ cMax then
      let c0 := (2 * x) / unit1
      let c1 := c0 + 1
      let d0 := 2 * x - c0 * unit1
      let d1 := c1 * unit1 - 2 * x
      let pick :=
        if c0 < cMin then c1
        else if cMax < c1 then c0
        else if d0 < d1 then c0
        else if d1 < d0 then c1
        else if c0 % 2 == 0 then c0 else c1
      growScale fuel x lo hi closed unit1 (pick, best.2 + 1)
    else best

/-- The fewest significant digits that read back as the double `x ≥ 2 ^ 53`:
the digits as a number, and the count of zeros that follow them. -/
def shortestDigits (x : Nat) : Nat × Nat :=
  match binaryScale 972 x 1 with
  | none => (x, 0)
  | some p =>
    let q := x / p
    let hi := 2 * x + p
    let lo := 2 * x - (if q == 4503599627370496 then p / 2 else p)
    growScale 330 x lo hi (q % 2 == 0) 2 (x, 0)

/-- Writes the digits of `c` followed by `j` zeros the way Number::toString
does: in full up to 21 digits, in exponent notation beyond. -/
def formatDigits (c j : Nat) : String :=
  let digits := (toString c).data
  let n := digits.length + j
  if n ≤ 21 then String.mk (digits ++ List.replicate j '0')
  else
    match digits with
    | [] => ""
    | [d] => String.mk (d :: 'e' :: '+' :: (toString (n - 1)).data)
    | d :: ds => String.mk (d :: '.' :: ds ++ 'e' :: '+' :: (toString (n - 1)).data)

/-- Number::toString of a non-negative integer-valued double: below `2 ^ 53`
the decimal numeral, above it the shortest digits that read back. -/
def natToJSString (m : Nat) : String :=
  if m < 9007199254740992 then toString m
  else formatDigits (shortestDigits m).1 (shortestDigits m).2

/-- Number::toString of an integer-valued double. -/
def intToJSString : Int → String
  | Int.ofNat m => natToJSString m
  | Int.negSucc m => "-" ++ natToJSString (m + 1)

namespace JSVal

/-- ToBoolean: `undefined`, `null`, `false`, `0`, `NaN` and `''` are falsy,
everything else (arrays and objects included) is truthy. -/
def truthy : JSVal → Bool
  | undefined => false
  | null => false
  | bool b => b
  | num n => n != 0
  | infinity _ => true
  | nan => false
  | str s => s != ""
  | arr _ => true
  | obj _ => true

/-- The operator `a || b`: `a` when it is truthy, else `b`. -/
def or (a b : JSVal) : JSVal :=
  if truthy a then a else b

/-- Property read `v.key` for the keys read here (`data`, `id`, `name`,
`partner_id`, `amount_total` and the keys of the objects the handlers build;
never `length`, an index or an inherited member): a TypeError on `undefined`
and `null`, the stored value (or `undefined`) on an object, `undefined` on a
primitive or an array, which carry none of these keys. -/
def getProp (v : JSVal) (key : String) : Except JSError JSVal :=
  match v with
  | undefined => .error .typeError
  | null => .error .typeError
  | obj fields => .ok ((fields.lookup key).getD undefined)
  | _ => .ok undefined

mutual
/-- ToString of a value: Number::toString on a number, `Array.prototype.join`
on an array, `[object Object]` on a plain object. -/
def toStr : JSVal → String
  | undefined => "undefined"
  | null => "null"
  | bool b => if b then "true" else "false"
  | num n => intToJSString n
  | infinity negative => if negative then "-Infinity" else "Infinity"
  | nan => "NaN"
  | str s => s
  | arr xs => joinStr xs
  | obj _ => "[object Object]"
termination_by structural v => v
/-- The elements joined by a comma, `undefined` and `null` giving the empty
string. -/
def joinStr : List JSVal → String
  | [] => ""
  | x :: rest =>
    (match x with
      | undefined => ""
      | null => ""
      | v => toStr v) ++ (match rest with | [] => "" | _ => ",") ++ joinStr rest
termination_by structural xs => xs
end

/-- The operator `s + v` with a string on the left: concatenation with the
string form of `v`. -/
def concat (s : String) (v : JSVal) : String :=
  s ++ toStr v

/-- The test `v === s` against a string literal. -/
def strictEqStr (v : JSVal) (s : String) : Bool :=
  match v with
  | str t => t == s
  | _ => false

end JSVal

open JSVal

/-! ## parseInt -/

/-- WhiteSpace and LineTerminator code points, skipped by `parseInt`. -/
def isJSWhitespace (c : Char) : Bool :=
  let n := c.toNat
  n == 0x09 || n == 0x0A || n == 0x0B || n == 0x0C || n == 0x0D || n == 0x20 ||
  n == 0xA0 || n == 0x1680 || (0x2000 ≤ n && n ≤ 0x200A) || n == 0x2028 ||
  n == 0x2029 || n == 0x202F || n == 0x205F || n == 0x3000 || n == 0xFEFF

/-- Value of a digit character in radix `radix`, if it is one. -/
def digitValue (radix : Nat) (c : Char) : Option Nat :=
  let n := c.toNat
  let v :=
    if 48 ≤ n && n ≤ 57 then some (n - 48)
    else if 97 ≤ n && n ≤ 122 then some (n - 97 + 10)
    else if 65 ≤ n && n ≤ 90 then some (n - 65 + 10)
    else none
  match v with
  | some d => if d < radix then some d else none
  | none => none

/-- Reads the longest prefix of digits in radix `radix`: the value accumulated
and the number of digits read. -/
def readDigits (radix : Nat) : List Char → Nat → Nat → Nat × Nat
  | [], acc, count => (acc, count)
  | c :: cs, acc, count =>
    match digitValue radix c with
    | some d => readDigits radix cs (acc * radix + d) (count + 1)
    | none => (acc, count)

/-- Drops the leading white space. -/
def skipWhitespace : List Char → List Char
  | [] => []
  | c :: cs => if isJSWhitespace c then skipWhitespace cs else c :: cs

/-- Reads an optional sign: whether it is a minus, and the rest. -/
def readSign : List Char → Bool × List Char
  | '-' :: rest => (true, rest)
  | '+' :: rest => (false, rest)
  | s => (false, s)

/-- Reads an optional `0x`/`0X` prefix: the radix, and the rest. -/
def readRadix : List Char → Nat × List Char
  | '0' :: 'x' :: rest => (16, rest)
  | '0' :: 'X' :: rest => (16, rest)
  | s => (10, s)

/-- The number value of a signed mathematical integer: the nearest double, or
an infinity beyond the largest one. -/
def ofMathInt (negative : Bool) (m : Nat) : JSVal :=
  match roundToDouble m with
  | none => infinity negative
  | some v => if negative then num (-(v : Int)) else num (v : Int)

/-- The function `parseInt(string)` without a radix argument, on the characters
of the string: leading white space is skipped, a sign is read, a `0x`/`0X`
prefix selects radix 16, the longest digit prefix is converted and rounded to
a double, and `NaN` results when there is no digit. -/
def parseIntChars (input : List Char) : JSVal :=
  let signed := readSign (skipWhitespace input)
  let based := readRadix signed.2
  let r := readDigits based.1 based.2 0 0
  if r.2 = 0 then nan
  else ofMathInt signed.1 r.1

/-- The call `parseInt(v)`: the argument is converted to a string first. -/
def parseInt (v : JSVal) : JSVal :=
  parseIntChars (toStr v).data

/-! ## The page and the effects of a handler -/

/-- A dialog element built from a rendered template and appended to the
document body. `shown` is the visibility the modal plugin gives it. -/
structure Modal where
  template : String
  context : JSVal
  shown : Bool

/-- Outward effects of the handlers, in the order they happen. -/
inductive Effect where
  | preventDefault
  | stopPropagation
  | rpc (model method : String) (args : JSVal)
  | navigate (href : String)
  | doAction (action : JSVal)

/-- The page: the dialog elements attached to the body, oldest first, and the
log of effects. -/
structure World where
  body : List Modal
  log : List Effect

/-- Marks the element at position `i` as hidden and keeps every element in
place. -/
def hideAt : Nat → List Modal → List Modal
  | _, [] => []
  | 0, m :: ms => { m with shown := false } :: ms
  | i + 1, m :: ms => m :: hideAt i ms

namespace World

/-- Appends an effect to the log. -/
def emit (w : World) (e : Effect) : World :=
  { w with log := w.log ++ [e] }

/-- The chain `$(qweb.render(template, context)).appendTo('body').modal()`:
the new element is attached at the end of the body and shown. Returns the
page and the handle of the element (its position in the body). -/
def showModal (w : World) (template : String) (context : JSVal) : World × Nat :=
  ({ w with body := w.body ++ [{ template := template, context := context, shown := true }] },
   w.body.length)

/-- The call `$dialog.modal('hide')` of the modal plugin: the element is
hidden; it stays attached to the body. -/
def hide (w : World) (dlg : Nat) : World :=
  { w with body := hideAt dlg w.body }

end World

/-- Targets assigned to `window.location.href`, in order. -/
def navigations : List Effect → List String
  | [] => []
  | .navigate href :: es => href :: navigations es
  | _ :: es => navigations es

/-- Actions handed to `do_action`, in order. -/
def actions : List Effect → List JSVal
  | [] => []
  | .doAction a :: es => a :: actions es
  | _ :: es => actions es

/-- Remote calls issued, in order, as (model, method, args). -/
def remoteCalls : List Effect → List (String × String × JSVal)
  | [] => []
  | .rpc model method args :: es => (model, method, args) :: remoteCalls es
  | _ :: es => remoteCalls es

/-- Visibility of the dialog with handle `dlg`, if it is attached. -/
def shownAt (w : World) (dlg : Nat) : Option Bool :=
  (w.body.get? dlg).map Modal.shown

/-! ## Remote replies -/

/-- A record of a remote reply: field names with their values. -/
abbrev Record := List (String × JSVal)

/-- What `read` and `search_read` resolve to: a list of records, or no value. -/
inductive RpcResult where
  | undefined
  | null
  | rows (rs : List Record)

namespace RpcResult

/-- The reply as a JavaScript value. -/
def toVal : RpcResult → JSVal
  | undefined => JSVal.undefined
  | null => JSVal.null
  | rows rs => JSVal.arr (rs.map JSVal.obj)

/-- The guard `result && result.length > 0`. -/
def nonEmpty : RpcResult → Bool
  | undefined => false
  | null => false
  | rows rs => decide (rs.length > 0)

/-- The element read `result[0]`. -/
def first : RpcResult → Except JSError JSVal
  | undefined => .error .typeError
  | null => .error .typeError
  | rows [] => .ok JSVal.undefined
  | rows (r :: _) => .ok (JSVal.obj r)

end RpcResult

/-- Outcome of the promise a remote call returns. -/
inductive Reply where
  | resolved (r : RpcResult)
  | rejected

/-- The expression `record.data.id`. -/
def recordId (record : JSVal) : Except JSError JSVal :=
  match getProp record "data" with
  | .error e => .error e
  | .ok data => getProp data "id"

/-- The action object handed to `do_action` for a form id. -/
def openFormAction (resId : JSVal) : JSVal :=
  obj [("type", str "ir.actions.act_window"),
       ("name", str "Business Trip Form"),
       ("res_model", str "formio.form"),
       ("view_mode", str "form"),
       ("views", arr [arr [bool false, str "formio_form"]]),
       ("res_id", resId)]

/-- What one handler or callback leaves behind: the page, whether it raised,
whether it left a remote call pending whose reply resumes the chain, and the
dialog it bound handlers on. -/
structure Step where
  world : World
  threw : Bool
  pending : Bool
  dialog : Option Nat

/-- A choice of the user on the form-selection dialog. -/
inductive Choice where
  | confirm (selected : JSVal)
  | cancel

/-- Runs the handler the choice triggers, given the confirm and cancel
handlers bound on the dialog. -/
def runChoice (onConfirm : JSVal → World → Step) (onCancel : World → Step)
    (c : Choice) (w : World) : Step :=
  match c with
  | .confirm selected => onConfirm selected w
  | .cancel => onCancel w

/-! ## Row-click controller, earlier variant (`custom_trip_redirect copy.js`) -/

namespace VariantA

/-- The arguments of the order read. -/
def saleReadArgs (id : JSVal) : JSVal :=
  arr [arr [id], arr [str "name", str "partner_id"]]

/-- The arguments of the linked-form query. -/
def formSearchArgs (id : JSVal) : JSVal :=
  arr [arr [arr [str "sale_order_id", str "=", id]],
       arr [str "id", str "name", str "create_date"]]

/-- The synchronous part of `_onRowClicked`: with `record` the value of
`this.model.get(...)`, the order read is issued. -/
def onRowClicked (record : JSVal) (w : World) : Step :=
  match recordId record with
  | .error _ => { world := w, threw := true, pending := false, dialog := none }
  | .ok id =>
    { world := w.emit (.rpc "sale.order" "read" (saleReadArgs id)),
      threw := false, pending := true, dialog := none }

/-- The callback on the order read. -/
def onSaleResult (record : JSVal) (saleResult : RpcResult) (w : World) : Step :=
  if saleResult.nonEmpty then
    match recordId record with
    | .error _ => { world := w, threw := true, pending := false, dialog := none }
    | .ok id =>
      { world := w.emit (.rpc "formio.form" "search_read" (formSearchArgs id)),
        threw := false, pending := true, dialog := none }
  else
    { world := w, threw := false, pending := false, dialog := none }

/-- The callback on the linked-form query: the dialog is rendered, attached
and shown. -/
def onFormResult (saleResult formResult : RpcResult) (w : World) : Step :=
  match saleResult.first with
  | .error _ => { world := w, threw := true, pending := false, dialog := none }
  | .ok saleOrder =>
    let shown := w.showModal "BusinessTripFormSelectionDialog"
      (obj [("sale_order", saleOrder), ("forms", formResult.toVal)])
    { world := shown.1, threw := false, pending := false, dialog := some shown.2 }

/-- The click handler of `.o_confirm`, with `selectedFormId` the value of the
select element. -/
def onConfirm (record : JSVal) (dlg : Nat) (selectedFormId : JSVal) (w : World) : Step :=
  if strictEqStr selectedFormId "new" then
    match recordId record with
    | .error _ => { world := w, threw := true, pending := false, dialog := none }
    | .ok id =>
      { world := (w.emit (.navigate (concat "/business_trip/start/" id))).hide dlg,
        threw := false, pending := false, dialog := none }
  else
    { world := (w.emit (.doAction (openFormAction (parseInt selectedFormId)))).hide dlg,
      threw := false, pending := false, dialog := none }

/-- The click handler of `.o_cancel`. -/
def onCancel (dlg : Nat) (w : World) : Step :=
  { world := w.hide dlg, threw := false, pending := false, dialog := none }

/-- One row click with the replies of the two remote calls: the promise chain
run to its end. A rejected call or a raised exception ends the chain. -/
def rowClick (record : JSVal) (sale form : Reply) (w : World) : Step :=
  let s1 := onRowClicked record w
  if s1.pending then
    match sale with
    | .rejected => { s1 with pending := false }
    | .resolved saleResult =>
      let s2 := onSaleResult record saleResult s1.world
      if s2.pending then
        match form with
        | .rejected => { s2 with pending := false }
        | .resolved formResult => onFormResult saleResult formResult s2.world
      else s2
  else s1

/-- A row click followed, when a dialog came up, by one choice on it. -/
def session (record : JSVal) (sale form : Reply) (c : Choice) (w : World) : Step :=
  let s := rowClick record sale form w
  match s.dialog with
  | none => s
  | some dlg => runChoice (onConfirm record dlg) (onCancel dlg) c s.world

end VariantA

/-! ## Row-click controller, later variant (`custom_trip_redirect.js`) -/

namespace VariantB

/-- The arguments of the order read. -/
def saleReadArgs (id : JSVal) : JSVal :=
  arr [arr [id], arr [str "name", str "partner_id", str "amount_total"]]

/-- The arguments of the linked-form query. -/
def formSearchArgs (id : JSVal) : JSVal :=
  arr [arr [arr [str "sale_order_id", str "=", id]],
       arr [str "id", str "name", str "create_date", str "state"]]

/-- The guard `!record || !record.data || !record.data.id`, evaluated left to
right with short circuit. -/
def recordMissing (record : JSVal) : Except JSError Bool :=
  if !truthy record then .ok true
  else
    match getProp record "data" with
    | .error e => .error e
    | .ok data =>
      if !truthy data then .ok true
      else
        match getProp data "id" with
        | .error e => .error e
        | .ok id => .ok (!truthy id)

/-- The synchronous part of `_onRowClicked`: the event is consumed, the record
is checked, the order read is issued. -/
def onRowClicked (record : JSVal) (w : World) : Step :=
  let w1 := (w.emit .preventDefault).emit .stopPropagation
  match recordMissing record with
  | .error _ => { world := w1, threw := true, pending := false, dialog := none }
  | .ok true => { world := w1, threw := false, pending := false, dialog := none }
  | .ok false =>
    match recordId record with
    | .error _ => { world := w1, threw := true, pending := false, dialog := none }
    | .ok id =>
      { world := w1.emit (.rpc "sale.order" "read" (saleReadArgs id)),
        threw := false, pending := true, dialog := none }

/-- The callback on the order read. -/
def onSaleResult (record : JSVal) (saleResult : RpcResult) (w : World) : Step :=
  if saleResult.nonEmpty then
    match recordId record with
    | .error _ => { world := w, threw := true, pending := false, dialog := none }
    | .ok id =>
      { world := w.emit (.rpc "formio.form" "search_read" (formSearchArgs id)),
        threw := false, pending := true, dialog := none }
  else
    { world := w, threw := false, pending := false, dialog := none }

/-- The `sale_order` object built for the dialog from `saleResult[0]`. -/
def saleOrderArg (saleResult : RpcResult) : Except JSError JSVal :=
  match saleResult.first with
  | .error e => .error e
  | .ok r =>
    match getProp r "name", getProp r "partner_id", getProp r "amount_total" with
    | .ok name, .ok partner, .ok amount =>
      .ok (obj [("name", JSVal.or name (str "")),
                ("partner_id", JSVal.or partner (arr [num 0, str ""])),
                ("amount_total", JSVal.or amount (num 0))])
    | _, _, _ => .error .typeError

/-- The callback on the linked-form query: the dialog is rendered, attached
and shown. -/
def onFormResult (saleResult formResult : RpcResult) (w : World) : Step :=
  match saleOrderArg saleResult with
  | .error _ => { world := w, threw := true, pending := false, dialog := none }
  | .ok saleOrder =>
    let shown := w.showModal "BusinessTripFormSelectionDialog"
      (obj [("sale_order", saleOrder), ("forms", JSVal.or formResult.toVal (arr []))])
    { world := shown.1, threw := false, pending := false, dialog := some shown.2 }

/-- The click handler of `.o_confirm`, with `selectedFormId` the value of the
select element. -/
def onConfirm (record : JSVal) (dlg : Nat) (selectedFormId : JSVal) (w : World) : Step :=
  if strictEqStr selectedFormId "new" then
    let w1 := w.hide dlg
    match recordId record with
    | .error _ => { world := w1, threw := true, pending := false, dialog := none }
    | .ok id =>
      { world := w1.emit (.navigate (concat "/business_trip/new/" id)),
        threw := false, pending := false, dialog := none }
  else
    { world := (w.hide dlg).emit (.doAction (openFormAction (parseInt selectedFormId))),
      threw := false, pending := false, dialog := none }

/-- The click handler of `.o_cancel`. -/
def onCancel (dlg : Nat) (w : World) : Step :=
  { world := w.hide dlg, threw := false, pending := false, dialog := none }

/-- One row click with the replies of the two remote calls: the promise chain
run to its end. A rejected call or a raised exception ends the chain. -/
def rowClick (record : JSVal) (sale form : Reply) (w : World) : Step :=
  let s1 := onRowClicked record w
  if s1.pending then
    match sale with
    | .rejected => { s1 with pending := false }
    | .resolved saleResult =>
      let s2 := onSaleResult record saleResult s1.world
      if s2.pending then
        match form with
        | .rejected => { s2 with pending := false }
        | .resolved formResult => onFormResult saleResult formResult s2.world
      else s2
  else s1

/-- A row click followed, when a dialog came up, by one choice on it. -/
def session (record : JSVal) (sale form : Reply) (c : Choice) (w : World) : Step :=
  let s := rowClick record sale form w
  match s.dialog with
  | none => s
  | some dlg => runChoice (onConfirm record dlg) (onCancel dlg) c s.world

end VariantB

/-! ## Request-type dialog controller (`custom_trip_form_request.js`) -/

namespace RequestType

/-- The two buttons of the type-selection dialog. -/
inductive TypeChoice where
  | withQuotation
  | standalone

/-- The method `_showRequestTypeDialog`: the dialog is rendered with an empty
context, attached and shown; the two click handlers are bound on it. -/
def showRequestTypeDialog (w : World) : Step :=
  let shown := w.showModal "BusinessTripRequestTypeDialog" (obj [])
  { world := shown.1, threw := false, pending := false, dialog := some shown.2 }

/-- The click handler of `.btn-with-quotation`. -/
def onWithQuotation (dlg : Nat) (w : World) : Step :=
  { world := (w.hide dlg).emit (.navigate "/business_trip/quotation_list"),
    threw := false, pending := false, dialog := none }

/-- The click handler of `.btn-standalone`. -/
def onStandalone (dlg : Nat) (w : World) : Step :=
  { world := (w.hide dlg).emit (.navigate "/business_trip/create_standalone"),
    threw := false, pending := false, dialog := none }

/-- The method `renderButtons`, after the inherited renderer ran: `hasButtons`
tells whether `this.$buttons` exists. Returns the click handlers bound on
`.o_list_button_create_request`. -/
def renderButtons (hasButtons : Bool) : List (World → Step) :=
  if !hasButtons then []
  else [fun w => showRequestTypeDialog w]

/-- One click on the create button: every bound handler runs, in binding
order. Returns the page and the dialogs opened. -/
def clickCreate : List (World → Step) → World → World × List Nat
  | [], w => (w, [])
  | h :: hs, w =>
    let s := h w
    let rest := clickCreate hs s.world
    (rest.1, s.dialog.toList ++ rest.2)

/-- Runs the handler of the chosen button. -/
def choose (dlg : Nat) (c : TypeChoice) (w : World) : Step :=
  match c with
  | .withQuotation => onWithQuotation dlg w
  | .standalone => onStandalone dlg w

end RequestType


/-- Runs the handlers of a sequence of choices on one dialog, one after the
other. -/
def runChoices (onConfirm : JSVal → World → Step) (onCancel : World → Step) :
    List Choice → World → World
  | [], w => w
  | c :: cs, w => runChoices onConfirm onCancel cs (runChoice onConfirm onCancel c w).world

/-- Runs the handlers of a sequence of button clicks on one type-selection
dialog, one after the other. -/
def RequestType.chooseAll (dlg : Nat) : List RequestType.TypeChoice → World → World
  | [], w => w
  | c :: cs, w => RequestType.chooseAll dlg cs (RequestType.choose dlg c w).world

/-- An entry of the select element of the form-selection dialog. -/
inductive SelectOption where
  | form (f : JSVal)
  | createNew

/-- Modelled from the spec: the template `BusinessTripFormSelectionDialog` is
not among the source files. The spec has the dialog list the existing forms
plus a "new" option: one entry per element of the `forms` value of the render
context, and one entry for a new form. -/
def dialogOptions (context : JSVal) : List SelectOption :=
  match getProp context "forms" with
  | .ok (arr fs) => fs.map SelectOption.form ++ [SelectOption.createNew]
  | _ => [SelectOption.createNew]

/-- A row record as the list model returns it, for order 7. -/
def sampleRecord : JSVal :=
  obj [("id", str "sale.order_12"), ("data", obj [("id", num 7), ("name", str "S00007")])]

/-- A reply of the order read with one record. -/
def sampleSale : RpcResult :=
  .rows [[("id", num 7), ("name", str "S00007"), ("partner_id", arr [num 3, str "Azure"]),
          ("amount_total", num 250)]]

/-- A reply of the linked-form query with two forms. -/
def sampleForms : RpcResult :=
  .rows [[("id", num 41), ("name", str "Trip 41")], [("id", num 42), ("name", str "Trip 42")]]

/-- The page before any click. -/
def emptyPage : World :=
  { body := [], log := [] }

/-! ## Basic facts about the page -/

@[simp] theorem emit_body (w : World) (e : Effect) : (w.emit e).body = w.body := rfl

@[simp] theorem emit_log (w : World) (e : Effect) : (w.emit e).log = w.log ++ [e] := rfl

@[simp] theorem hide_log (w : World) (d : Nat) : (w.hide d).log = w.log := rfl

@[simp] theorem hide_body (w : World) (d : Nat) : (w.hide d).body = hideAt d w.body := rfl

theorem navigations_append (l₁ l₂ : List Effect) :
    navigations (l₁ ++ l₂) = navigations l₁ ++ navigations l₂ := by
  induction l₁ with
  | nil => rfl
  | cons e es ih => cases e <;> simp [navigations, ih]

theorem actions_append (l₁ l₂ : List Effect) :
    actions (l₁ ++ l₂) = actions l₁ ++ actions l₂ := by
  induction l₁ with
  | nil => rfl
  | cons e es ih => cases e <;> simp [actions, ih]

theorem remoteCalls_append (l₁ l₂ : List Effect) :
    remoteCalls (l₁ ++ l₂) = remoteCalls l₁ ++ remoteCalls l₂ := by
  induction l₁ with
  | nil => rfl
  | cons e es ih => cases e <;> simp [remoteCalls, ih]

@[simp] theorem hideAt_length (i : Nat) (l : List Modal) : (hideAt i l).length = l.length := by
  induction l generalizing i with
  | nil => cases i <;> rfl
  | cons m ms ih => cases i <;> simp [hideAt, ih]

theorem hideAt_shown (i : Nat) (l : List Modal) (h : i < l.length) :
    ((hideAt i l)[i]?).map Modal.shown = some false := by
  induction l generalizing i with
  | nil => simp at h
  | cons m ms ih =>
    cases i with
    | zero => simp [hideAt]
    | succ j =>
      have hj : j < ms.length := by simpa using h
      simpa [hideAt] using ih j hj

theorem hideAt_append_last (l : List Modal) (m : Modal) :
    hideAt l.length (l ++ [m]) = l ++ [{ m with shown := false }] := by
  induction l with
  | nil => rfl
  | cons x xs ih => simp [hideAt, ih]

theorem shownAt_hide (w : World) (d : Nat) (h : d < w.body.length) :
    shownAt (w.hide d) d = some false := by
  simpa [shownAt] using hideAt_shown d w.body h

/-! ## Reading the row id -/

theorem recordMissing_of_recordId (record id : JSVal) (h : recordId record = .ok id)
    (ht : truthy id = true) : VariantB.recordMissing record = .ok false := by
  cases record with
  | obj fields =>
    simp only [recordId, getProp] at h
    cases hd : (List.lookup "data" fields).getD undefined with
    | obj d =>
      rw [hd] at h
      simp only [getProp] at h
      cases h
      have h1 : truthy (obj fields) = true := rfl
      have h2 : truthy (obj d) = true := rfl
      simp [VariantB.recordMissing, getProp, hd, h1, h2, ht]
    | undefined => rw [hd] at h; simp [getProp] at h
    | null => rw [hd] at h; simp [getProp] at h
    | bool b => rw [hd] at h; simp only [getProp] at h; cases h; simp [truthy] at ht
    | num n => rw [hd] at h; simp only [getProp] at h; cases h; simp [truthy] at ht
    | nan => rw [hd] at h; simp only [getProp] at h; cases h; simp [truthy] at ht
    | infinity b => rw [hd] at h; simp only [getProp] at h; cases h; simp [truthy] at ht
    | str s => rw [hd] at h; simp only [getProp] at h; cases h; simp [truthy] at ht
    | arr xs => rw [hd] at h; simp only [getProp] at h; cases h; simp [truthy] at ht
  | undefined => simp [recordId, getProp] at h
  | null => simp [recordId, getProp] at h
  | bool b => simp only [recordId, getProp] at h; cases h
  | num n => simp only [recordId, getProp] at h; cases h
  | nan => simp only [recordId, getProp] at h; cases h
  | infinity b => simp only [recordId, getProp] at h; cases h
  | str s => simp only [recordId, getProp] at h; cases h
  | arr xs => simp only [recordId, getProp] at h; cases h

/-- When the earlier variant brings up a dialog, the row id was read, both
replies resolved and the order read was not empty. -/
theorem dialogA_inv (record : JSVal) (sale form : Reply) (w : World) (dlg : Nat)
    (h : (VariantA.rowClick record sale form w).dialog = some dlg) :
    ∃ id saleResult formResult, recordId record = .ok id ∧
      sale = .resolved saleResult ∧ form = .resolved formResult ∧
      saleResult.nonEmpty = true ∧ dlg = w.body.length := by
  cases hid : recordId record with
  | error e => simp [VariantA.rowClick, VariantA.onRowClicked, hid] at h
  | ok id =>
    cases sale with
    | rejected => simp [VariantA.rowClick, VariantA.onRowClicked, hid] at h
    | resolved saleResult =>
      cases hne : saleResult.nonEmpty with
      | false =>
        simp [VariantA.rowClick, VariantA.onRowClicked, VariantA.onSaleResult, hid, hne] at h
      | true =>
        cases form with
        | rejected =>
          simp [VariantA.rowClick, VariantA.onRowClicked, VariantA.onSaleResult, hid, hne] at h
        | resolved formResult =>
          refine ⟨id, saleResult, formResult, rfl, rfl, rfl, hne, ?_⟩
          cases hf : saleResult.first with
          | error e =>
            simp [VariantA.rowClick, VariantA.onRowClicked, VariantA.onSaleResult,
              VariantA.onFormResult, hid, hne, hf] at h
          | ok so =>
            simp [VariantA.rowClick, VariantA.onRowClicked, VariantA.onSaleResult,
              VariantA.onFormResult, World.showModal, hid, hne, hf] at h
            exact h.symm

/-- When the later variant brings up a dialog, the row id was read and is
truthy, both replies resolved and the order read was not empty. -/
theorem dialogB_inv (record : JSVal) (sale form : Reply) (w : World) (dlg : Nat)
    (h : (VariantB.rowClick record sale form w).dialog = some dlg) :
    ∃ id saleResult formResult, recordId record = .ok id ∧
      sale = .resolved saleResult ∧ form = .resolved formResult ∧
      saleResult.nonEmpty = true ∧ dlg = w.body.length := by
  cases hm : VariantB.recordMissing record with
  | error e => simp [VariantB.rowClick, VariantB.onRowClicked, hm] at h
  | ok b =>
    cases b with
    | true => simp [VariantB.rowClick, VariantB.onRowClicked, hm] at h
    | false =>
      cases hid : recordId record with
      | error e => simp [VariantB.rowClick, VariantB.onRowClicked, hm, hid] at h
      | ok id =>
        cases sale with
        | rejected => simp [VariantB.rowClick, VariantB.onRowClicked, hm, hid] at h
        | resolved saleResult =>
          cases hne : saleResult.nonEmpty with
          | false =>
            simp [VariantB.rowClick, VariantB.onRowClicked, VariantB.onSaleResult, hm, hid,
              hne] at h
          | true =>
            cases form with
            | rejected =>
              simp [VariantB.rowClick, VariantB.onRowClicked, VariantB.onSaleResult, hm, hid,
                hne] at h
            | resolved formResult =>
              refine ⟨id, saleResult, formResult, rfl, rfl, rfl, hne, ?_⟩
              cases hf : VariantB.saleOrderArg saleResult with
              | error e =>
                simp [VariantB.rowClick, VariantB.onRowClicked, VariantB.onSaleResult,
                  VariantB.onFormResult, hm, hid, hne, hf] at h
              | ok so =>
                simp [VariantB.rowClick, VariantB.onRowClicked, VariantB.onSaleResult,
                  VariantB.onFormResult, World.showModal, hm, hid, hne, hf] at h
                exact h.symm

/-! ## parseInt on decimal numerals -/

theorem digitValue_digitChar (d : Nat) (h : d < 10) :
    digitValue 10 (Nat.digitChar d) = some d := by
  interval_cases d <;> rfl

theorem isJSWhitespace_digitChar (d : Nat) (h : d < 10) :
    isJSWhitespace (Nat.digitChar d) = false := by
  interval_cases d <;> rfl

theorem readDigits_digitChar (d : Nat) (h : d < 10) (tail : List Char) (acc cnt : Nat) :
    readDigits 10 (Nat.digitChar d :: tail) acc cnt = readDigits 10 tail (acc * 10 + d) (cnt + 1) := by
  simp [readDigits, digitValue_digitChar d h]

/-- The numeral `Nat.toDigitsCore` writes in front of `ds` is a non-empty run
of decimal digits that `readDigits` reads back as `n`. -/
theorem toDigitsCore_spec (fuel : Nat) : ∀ (n : Nat) (ds : List Char), n < fuel →
    ∃ L : List Char, Nat.toDigitsCore 10 fuel n ds = L ++ ds ∧ L ≠ [] ∧
      (∀ c ∈ L, ∃ d, d < 10 ∧ c = Nat.digitChar d) ∧
      ∀ (acc cnt : Nat) (tail : List Char), readDigits 10 (L ++ tail) acc cnt =
        readDigits 10 tail (acc * 10 ^ L.length + n) (cnt + L.length) := by
  induction fuel with
  | zero => intro n ds h; omega
  | succ fuel ih =>
    intro n ds h
    have hd : n % 10 < 10 := Nat.mod_lt n (by decide)
    by_cases h0 : n / 10 = 0
    · refine ⟨[Nat.digitChar (n % 10)], ?_, by simp, ?_, ?_⟩
      · simp [Nat.toDigitsCore, h0]
      · intro c hc
        exact ⟨n % 10, hd, by simpa using hc⟩
      · intro acc cnt tail
        have hn : n % 10 = n := by omega
        simp only [List.singleton_append, List.length_singleton, pow_one]
        rw [readDigits_digitChar _ hd, hn]
    · have hlt : n / 10 < fuel := by omega
      obtain ⟨L, hL, hne, hall, hread⟩ := ih (n / 10) (Nat.digitChar (n % 10) :: ds) hlt
      refine ⟨L ++ [Nat.digitChar (n % 10)], ?_, by simp, ?_, ?_⟩
      · simp [Nat.toDigitsCore, h0, hL]
      · intro c hc
        rcases List.mem_append.mp hc with hc | hc
        · exact hall c hc
        · exact ⟨n % 10, hd, by simpa using hc⟩
      · intro acc cnt tail
        have e : (L ++ [Nat.digitChar (n % 10)]) ++ tail = L ++ (Nat.digitChar (n % 10) :: tail) := by
          simp
        rw [e, hread, readDigits_digitChar (n % 10) hd]
        have hv : (acc * 10 ^ L.length + n / 10) * 10 + n % 10 =
            acc * 10 ^ (L ++ [Nat.digitChar (n % 10)]).length + n := by
          have := Nat.div_add_mod n 10
          simp only [List.length_append, List.length_singleton, pow_succ]
          nlinarith
        have hc : cnt + L.length + 1 = cnt + (L ++ [Nat.digitChar (n % 10)]).length := by
          simp; omega
        rw [hv, hc]

theorem readSign_digitChar (d : Nat) (h : d < 10) (rest : List Char) :
    readSign (Nat.digitChar d :: rest) = (false, Nat.digitChar d :: rest) := by
  interval_cases d <;> rfl

theorem readRadix_single (d : Nat) (h : d < 10) :
    readRadix [Nat.digitChar d] = (10, [Nat.digitChar d]) := by
  interval_cases d <;> rfl

theorem readRadix_digitChar (d d2 : Nat) (h : d < 10) (h2 : d2 < 10) (rest : List Char) :
    readRadix (Nat.digitChar d :: Nat.digitChar d2 :: rest) =
      (10, Nat.digitChar d :: Nat.digitChar d2 :: rest) := by
  interval_cases d <;> interval_cases d2 <;> rfl

theorem roundToDouble_safe (n : Nat) (hn : n < 9007199254740992) :
    roundToDouble n = some n := by
  simp [roundToDouble, hn]

/-- Below `2 ^ 53` a number is printed as its decimal numeral. -/
theorem toStr_num_safe (n : Nat) (hn : n < 9007199254740992) :
    toStr (num (n : Int)) = toString n := by
  show intToJSString (Int.ofNat n) = toString n
  simp [intToJSString, natToJSString, hn]

theorem parseIntChars_digits (L : List Char) (n : Nat) (hn : n < 9007199254740992)
    (hne : L ≠ [])
    (hall : ∀ c ∈ L, ∃ d, d < 10 ∧ c = Nat.digitChar d)
    (hread : ∀ (acc cnt : Nat) (tail : List Char), readDigits 10 (L ++ tail) acc cnt =
        readDigits 10 tail (acc * 10 ^ L.length + n) (cnt + L.length)) :
    parseIntChars L = num (n : Int) := by
  have hr : readDigits 10 L 0 0 = (n, L.length) := by
    have := hread 0 0 []
    simpa [readDigits] using this
  have hlen : L.length ≠ 0 := by
    intro h0; exact hne (List.length_eq_zero.mp h0)
  have hpre : readRadix (readSign (skipWhitespace L)).2 = (10, L) ∧
      (readSign (skipWhitespace L)).1 = false := by
    cases L with
    | nil => exact absurd rfl hne
    | cons c rest =>
      obtain ⟨d, hd, rfl⟩ := hall _ (List.mem_cons_self _ _)
      have hws : skipWhitespace (Nat.digitChar d :: rest) = Nat.digitChar d :: rest := by
        simp [skipWhitespace, isJSWhitespace_digitChar d hd]
      rw [hws, readSign_digitChar d hd]
      refine ⟨?_, rfl⟩
      cases rest with
      | nil => exact readRadix_single d hd
      | cons c2 rest2 =>
        obtain ⟨d2, hd2, rfl⟩ := hall _ (List.mem_cons_of_mem _ (List.mem_cons_self _ _))
        exact readRadix_digitChar d d2 hd hd2 rest2
  simp [parseIntChars, ofMathInt, roundToDouble_safe n hn, hpre.1, hpre.2, hr, hlen]

/-- The decimal numeral of a natural number below `2 ^ 53`, as `toString`
writes it, is parsed back to that number. -/
theorem parseInt_toString (n : Nat) (hn : n < 9007199254740992) :
    parseInt (str (toString n)) = num (n : Int) := by
  obtain ⟨L, hL, hne, hall, hread⟩ := toDigitsCore_spec (n + 1) n [] (Nat.lt_succ_self n)
  have hdata : (toStr (str (toString n))).data = L := by
    have : (toString n).data = Nat.toDigitsCore 10 (n + 1) n [] := rfl
    simpa [toStr, this] using hL
  rw [parseInt, hdata]
  exact parseIntChars_digits L n hn hne hall hread

/-- The decimal numeral of a natural number is never the string `new`. -/
theorem toString_ne_new (n : Nat) : strictEqStr (str (toString n)) "new" = false := by
  obtain ⟨L, hL, hne, hall, _⟩ := toDigitsCore_spec (n + 1) n [] (Nat.lt_succ_self n)
  have hdata : (toString n).data = L := by
    have : (toString n).data = Nat.toDigitsCore 10 (n + 1) n [] := rfl
    simpa [this] using hL
  have : toString n ≠ "new" := by
    intro heq
    rw [heq] at hdata
    have hmem : 'n' ∈ L := by rw [← hdata]; decide
    obtain ⟨d, hd, hc⟩ := hall _ hmem
    interval_cases d <;> exact absurd hc (by decide)
  simpa [strictEqStr] using this

/-! ## Confirm with the selection "new" -/

/-- What the expression `record.data.id` has read when it did not raise: the
record is an object with a `data` entry, and the id is the `id` entry of
`data` (or `undefined` when `data` has none or is no object). -/
theorem recordId_read (record id : JSVal) (h : recordId record = .ok id) :
    ∃ (fields : Record) (data : JSVal),
      record = obj fields ∧ List.lookup "data" fields = some data ∧
      ((∃ dataFields, data = obj dataFields ∧
          id = (List.lookup "id" dataFields).getD undefined) ∨
       ((∀ dataFields, data ≠ obj dataFields) ∧ id = undefined)) := by
  cases record with
  | obj fields =>
    simp only [recordId, getProp] at h
    cases hl : List.lookup "data" fields with
    | none => rw [hl] at h; simp [getProp] at h
    | some data =>
      rw [hl] at h
      refine ⟨fields, data, rfl, hl, ?_⟩
      cases data with
      | obj d =>
        left
        simp only [Option.getD, getProp] at h
        cases h
        exact ⟨d, rfl, rfl⟩
      | undefined => simp [getProp] at h
      | null => simp [getProp] at h
      | bool b =>
        right; simp only [Option.getD, getProp] at h; cases h
        exact ⟨fun _ hc => JSVal.noConfusion hc, rfl⟩
      | num n =>
        right; simp only [Option.getD, getProp] at h; cases h
        exact ⟨fun _ hc => JSVal.noConfusion hc, rfl⟩
      | infinity b =>
        right; simp only [Option.getD, getProp] at h; cases h
        exact ⟨fun _ hc => JSVal.noConfusion hc, rfl⟩
      | nan =>
        right; simp only [Option.getD, getProp] at h; cases h
        exact ⟨fun _ hc => JSVal.noConfusion hc, rfl⟩
      | str t =>
        right; simp only [Option.getD, getProp] at h; cases h
        exact ⟨fun _ hc => JSVal.noConfusion hc, rfl⟩
      | arr xs =>
        right; simp only [Option.getD, getProp] at h; cases h
        exact ⟨fun _ hc => JSVal.noConfusion hc, rfl⟩
  | undefined => simp [recordId, getProp] at h
  | null => simp [recordId, getProp] at h
  | bool b => simp [recordId, getProp] at h
  | num n => simp [recordId, getProp] at h
  | infinity b => simp [recordId, getProp] at h
  | nan => simp [recordId, getProp] at h
  | str t => simp [recordId, getProp] at h
  | arr xs => simp [recordId, getProp] at h

/-- C1: in both row-click variants, whenever a row click brought up the
dialog, the row record is an object with a `data` entry, and the confirm
handler run with the selection `'new'` assigns to the browser location the
path whose final segment is the `id` entry of that `data`
(`'/business_trip/start/' + id` in the earlier variant,
`'/business_trip/new/' + id` in the later one); for an integer id `n` up to
`2 ^ 53 - 1` the final segment is the decimal numeral of `n`. No action is
dispatched: the assignment is the only effect added to the log. -/
theorem confirm_new_navigates (record : JSVal) (sale form : Reply) (w : World) (dlg : Nat)
    (h : (VariantA.rowClick record sale form w).dialog = some dlg ∨
         (VariantB.rowClick record sale form w).dialog = some dlg) :
    ∃ (fields : Record) (data id : JSVal),
      record = obj fields ∧ List.lookup "data" fields = some data ∧
      ((∃ dataFields, data = obj dataFields ∧
          id = (List.lookup "id" dataFields).getD undefined) ∨
       ((∀ dataFields, data ≠ obj dataFields) ∧ id = undefined)) ∧
      (∀ w1 : World,
        (VariantA.onConfirm record dlg (str "new") w1).threw = false ∧
        (VariantA.onConfirm record dlg (str "new") w1).world.log =
          w1.log ++ [.navigate ("/business_trip/start/" ++ toStr id)] ∧
        actions (VariantA.onConfirm record dlg (str "new") w1).world.log = actions w1.log) ∧
      (∀ w1 : World,
        (VariantB.onConfirm record dlg (str "new") w1).threw = false ∧
        (VariantB.onConfirm record dlg (str "new") w1).world.log =
          w1.log ++ [.navigate ("/business_trip/new/" ++ toStr id)] ∧
        actions (VariantB.onConfirm record dlg (str "new") w1).world.log = actions w1.log) ∧
      (∀ n : Nat, n ≤ 9007199254740991 → id = num (n : Int) → ∀ w1 : World,
        (VariantA.onConfirm record dlg (str "new") w1).world.log =
          w1.log ++ [.navigate ("/business_trip/start/" ++ toString n)] ∧
        (VariantB.onConfirm record dlg (str "new") w1).world.log =
          w1.log ++ [.navigate ("/business_trip/new/" ++ toString n)]) := by
  have hid : ∃ id, recordId record = .ok id := by
    rcases h with h | h
    · obtain ⟨id, _, _, hid, _⟩ := dialogA_inv record sale form w dlg h
      exact ⟨id, hid⟩
    · obtain ⟨id, _, _, hid, _⟩ := dialogB_inv record sale form w dlg h
      exact ⟨id, hid⟩
  obtain ⟨id, hid⟩ := hid
  obtain ⟨fields, data, hrec, hdata, hcase⟩ := recordId_read record id hid
  have hA : ∀ w1 : World,
      (VariantA.onConfirm record dlg (str "new") w1).threw = false ∧
      (VariantA.onConfirm record dlg (str "new") w1).world.log =
        w1.log ++ [.navigate ("/business_trip/start/" ++ toStr id)] ∧
      actions (VariantA.onConfirm record dlg (str "new") w1).world.log = actions w1.log := by
    intro w1
    simp [VariantA.onConfirm, strictEqStr, hid, concat, actions_append, actions]
  have hB : ∀ w1 : World,
      (VariantB.onConfirm record dlg (str "new") w1).threw = false ∧
      (VariantB.onConfirm record dlg (str "new") w1).world.log =
        w1.log ++ [.navigate ("/business_trip/new/" ++ toStr id)] ∧
      actions (VariantB.onConfirm record dlg (str "new") w1).world.log = actions w1.log := by
    intro w1
    simp [VariantB.onConfirm, strictEqStr, hid, concat, actions_append, actions]
  refine ⟨fields, data, id, hrec, hdata, hcase, hA, hB, ?_⟩
  intro n hn hnum w1
  have hs : toStr id = toString n := by
    rw [hnum]; exact toStr_num_safe n (by omega)
  rw [← hs]
  exact ⟨(hA w1).2.1, (hB w1).2.1⟩

/-- Witness of C1: the click on the row of order 7 brings up the dialog, and
confirming `'new'` navigates to `/business_trip/start/7` in the earlier
variant and to `/business_trip/new/7` in the later one. -/
theorem confirm_new_navigates_witness :
    (VariantA.rowClick sampleRecord (.resolved sampleSale) (.resolved sampleForms)
        emptyPage).dialog = some 0 ∧
    (VariantA.onConfirm sampleRecord 0 (str "new") emptyPage).world.log =
      [.navigate "/business_trip/start/7"] ∧
    (VariantB.onConfirm sampleRecord 0 (str "new") emptyPage).world.log =
      [.navigate "/business_trip/new/7"] := by
  obtain ⟨fields, data, id, hrec, hdata, hcase, _, _, hnum⟩ :=
    confirm_new_navigates sampleRecord (.resolved sampleSale) (.resolved sampleForms)
      emptyPage 0 (Or.inl rfl)
  have hf : fields =
      [("id", str "sale.order_12"), ("data", obj [("id", num 7), ("name", str "S00007")])] := by
    have h1 := hrec
    unfold sampleRecord at h1
    injection h1 with h1
    exact h1.symm
  subst hf
  have hd : some (obj [("id", num 7), ("name", str "S00007")]) = some data := hdata
  injection hd with hd
  subst hd
  have hid : id = num ((7 : Nat) : Int) := by
    rcases hcase with ⟨dataFields, hdf, hid⟩ | ⟨hno, _⟩
    · injection hdf with hdf
      subst hdf
      exact hid
    · exact absurd rfl (hno _)
  exact ⟨rfl, hnum 7 (by decide) hid emptyPage⟩

/-! ## Confirm with an existing form -/

/-- C2: in both row-click variants, for every form id `n` (a database id, an
integer up to the largest safe integer `2 ^ 53 - 1`), the confirm handler run
with the select value of that form (the decimal string of `n`) dispatches
exactly one action, an open-record action with res_model `formio.form`,
view_mode `form` and res_id `n`, and assigns no browser location: the
dispatch is the only effect added to the log. -/
theorem confirm_existing_opens_form (record : JSVal) (dlg n : Nat) (w : World)
    (hn : n ≤ 9007199254740991) :
    (VariantA.onConfirm record dlg (str (toString n)) w).world.log =
        w.log ++ [.doAction (openFormAction (num (n : Int)))] ∧
    (VariantB.onConfirm record dlg (str (toString n)) w).world.log =
        w.log ++ [.doAction (openFormAction (num (n : Int)))] ∧
    actions (VariantA.onConfirm record dlg (str (toString n)) w).world.log =
        actions w.log ++ [openFormAction (num (n : Int))] ∧
    actions (VariantB.onConfirm record dlg (str (toString n)) w).world.log =
        actions w.log ++ [openFormAction (num (n : Int))] ∧
    navigations (VariantA.onConfirm record dlg (str (toString n)) w).world.log =
        navigations w.log ∧
    navigations (VariantB.onConfirm record dlg (str (toString n)) w).world.log =
        navigations w.log ∧
    (VariantA.onConfirm record dlg (str (toString n)) w).threw = false ∧
    (VariantB.onConfirm record dlg (str (toString n)) w).threw = false ∧
    getProp (openFormAction (num (n : Int))) "type" = .ok (str "ir.actions.act_window") ∧
    getProp (openFormAction (num (n : Int))) "res_model" = .ok (str "formio.form") ∧
    getProp (openFormAction (num (n : Int))) "view_mode" = .ok (str "form") ∧
    getProp (openFormAction (num (n : Int))) "res_id" = .ok (num (n : Int)) := by
  have hnew := toString_ne_new n
  have hparse := parseInt_toString n (by omega)
  have hA : VariantA.onConfirm record dlg (str (toString n)) w =
      { world := (w.emit (.doAction (openFormAction (num (n : Int))))).hide dlg,
        threw := false, pending := false, dialog := none } := by
    simp [VariantA.onConfirm, hnew, hparse]
  have hB : VariantB.onConfirm record dlg (str (toString n)) w =
      { world := (w.hide dlg).emit (.doAction (openFormAction (num (n : Int)))),
        threw := false, pending := false, dialog := none } := by
    simp [VariantB.onConfirm, hnew, hparse]
  rw [hA, hB]
  simp [actions_append, navigations_append, actions, navigations]
  refine ⟨rfl, rfl, rfl, rfl⟩

/-- Witness of C2: confirming with the select value `'41'` of form 41 opens
that form. -/
theorem confirm_existing_opens_form_witness :
    41 ≤ 9007199254740991 ∧
    (VariantA.onConfirm sampleRecord 0 (str "41") emptyPage).world.log =
      [.doAction (obj [("type", str "ir.actions.act_window"),
                       ("name", str "Business Trip Form"),
                       ("res_model", str "formio.form"),
                       ("view_mode", str "form"),
                       ("views", arr [arr [bool false, str "formio_form"]]),
                       ("res_id", num 41)])] ∧
    (VariantB.onConfirm sampleRecord 0 (str "41") emptyPage).world.log =
      [.doAction (obj [("type", str "ir.actions.act_window"),
                       ("name", str "Business Trip Form"),
                       ("res_model", str "formio.form"),
                       ("view_mode", str "form"),
                       ("views", arr [arr [bool false, str "formio_form"]]),
                       ("res_id", num 41)])] :=
  ⟨by decide,
   (confirm_existing_opens_form sampleRecord 0 41 emptyPage (by decide)).1,
   (confirm_existing_opens_form sampleRecord 0 41 emptyPage (by decide)).2.1⟩

/-! ## Cancel -/

/-- C8: in both row-click variants, for every shown selection dialog, the
cancel handler hides the dialog and adds nothing to the log of effects: no
assignment to the browser location, no `do_action`, no remote call. -/
theorem cancel_only_dismisses (dlg : Nat) (w : World) (h : shownAt w dlg = some true) :
    shownAt (VariantA.onCancel dlg w).world dlg = some false ∧
    shownAt (VariantB.onCancel dlg w).world dlg = some false ∧
    (VariantA.onCancel dlg w).world.log = w.log ∧
    (VariantB.onCancel dlg w).world.log = w.log ∧
    navigations (VariantA.onCancel dlg w).world.log = navigations w.log ∧
    navigations (VariantB.onCancel dlg w).world.log = navigations w.log ∧
    actions (VariantA.onCancel dlg w).world.log = actions w.log ∧
    actions (VariantB.onCancel dlg w).world.log = actions w.log ∧
    remoteCalls (VariantA.onCancel dlg w).world.log = remoteCalls w.log ∧
    remoteCalls (VariantB.onCancel dlg w).world.log = remoteCalls w.log := by
  have hlt : dlg < w.body.length := by
    by_contra hge
    have hnone : w.body.get? dlg = none := List.get?_eq_none.mpr (by omega)
    rw [shownAt, hnone] at h
    cases h
  have hs := shownAt_hide w dlg hlt
  exact ⟨hs, hs, rfl, rfl, rfl, rfl, rfl, rfl, rfl, rfl⟩

/-- Witness of C8: the dialog the click on the row of order 7 brought up is
shown, and cancelling hides it with no further effect. -/
theorem cancel_only_dismisses_witness :
    shownAt (VariantB.rowClick sampleRecord (.resolved sampleSale) (.resolved sampleForms)
        emptyPage).world 0 = some true ∧
    shownAt (VariantB.onCancel 0 (VariantB.rowClick sampleRecord (.resolved sampleSale)
        (.resolved sampleForms) emptyPage).world).world 0 = some false ∧
    (VariantB.onCancel 0 (VariantB.rowClick sampleRecord (.resolved sampleSale)
        (.resolved sampleForms) emptyPage).world).world.log =
      (VariantB.rowClick sampleRecord (.resolved sampleSale) (.resolved sampleForms)
        emptyPage).world.log :=
  have h := cancel_only_dismisses 0
    (VariantB.rowClick sampleRecord (.resolved sampleSale) (.resolved sampleForms)
      emptyPage).world rfl
  ⟨rfl, h.2.1, h.2.2.2.1⟩

/-! ## The request-type dialog -/

/-- C5: in the request-type dialog controller, one click on the create button
opens exactly one type-selection dialog and has no other effect; the handler
of "with quotation" assigns exactly `/business_trip/quotation_list` to the
browser location, the handler of "standalone" exactly
`/business_trip/create_standalone`, and neither assigns any other path. -/
theorem create_click_opens_one_dialog (w w1 : World) (dlg : Nat) :
    RequestType.clickCreate (RequestType.renderButtons true) w =
      ({ body := w.body ++ [{ template := "BusinessTripRequestTypeDialog", context := obj [],
                              shown := true }],
         log := w.log }, [w.body.length]) ∧
    (RequestType.onWithQuotation dlg w1).world.log =
      w1.log ++ [.navigate "/business_trip/quotation_list"] ∧
    (RequestType.onStandalone dlg w1).world.log =
      w1.log ++ [.navigate "/business_trip/create_standalone"] ∧
    navigations (RequestType.onWithQuotation dlg w1).world.log =
      navigations w1.log ++ ["/business_trip/quotation_list"] ∧
    navigations (RequestType.onStandalone dlg w1).world.log =
      navigations w1.log ++ ["/business_trip/create_standalone"] := by
  refine ⟨rfl, rfl, rfl, ?_, ?_⟩
  · simp [RequestType.onWithQuotation, navigations_append, navigations]
  · simp [RequestType.onStandalone, navigations_append, navigations]

/-! ## Order read without a record -/

theorem nonEmpty_of_zero_records (saleResult : RpcResult)
    (h : saleResult = .rows [] ∨ saleResult = .null ∨ saleResult = .undefined) :
    saleResult.nonEmpty = false := by
  rcases h with h | h | h <;> subst h <;> rfl

/-- C3: in both row-click variants, when the order read resolves to zero
records (an empty list, `null` or `undefined`), the click brings up no dialog
and leaves the page body as it was, assigns no browser location, dispatches no
action, and issues no remote call besides the order read itself: the
linked-form query is not issued. -/
theorem empty_order_read_is_silent (record : JSVal) (saleResult : RpcResult) (form : Reply)
    (w : World)
    (h : saleResult = .rows [] ∨ saleResult = .null ∨ saleResult = .undefined) :
    ((VariantA.rowClick record (.resolved saleResult) form w).dialog = none ∧
     (VariantA.rowClick record (.resolved saleResult) form w).world.body = w.body ∧
     navigations (VariantA.rowClick record (.resolved saleResult) form w).world.log =
       navigations w.log ∧
     actions (VariantA.rowClick record (.resolved saleResult) form w).world.log =
       actions w.log ∧
     (remoteCalls (VariantA.rowClick record (.resolved saleResult) form w).world.log =
        remoteCalls w.log ∨
      ∃ id, recordId record = .ok id ∧
        remoteCalls (VariantA.rowClick record (.resolved saleResult) form w).world.log =
          remoteCalls w.log ++ [("sale.order", "read", VariantA.saleReadArgs id)])) ∧
    ((VariantB.rowClick record (.resolved saleResult) form w).dialog = none ∧
     (VariantB.rowClick record (.resolved saleResult) form w).world.body = w.body ∧
     navigations (VariantB.rowClick record (.resolved saleResult) form w).world.log =
       navigations w.log ∧
     actions (VariantB.rowClick record (.resolved saleResult) form w).world.log =
       actions w.log ∧
     (remoteCalls (VariantB.rowClick record (.resolved saleResult) form w).world.log =
        remoteCalls w.log ∨
      ∃ id, recordId record = .ok id ∧
        remoteCalls (VariantB.rowClick record (.resolved saleResult) form w).world.log =
          remoteCalls w.log ++ [("sale.order", "read", VariantB.saleReadArgs id)])) := by
  have hne := nonEmpty_of_zero_records saleResult h
  constructor
  · cases hid : recordId record with
    | error e =>
      simp [VariantA.rowClick, VariantA.onRowClicked, hid]
    | ok id =>
      simp [VariantA.rowClick, VariantA.onRowClicked, VariantA.onSaleResult, hid, hne,
        navigations_append, actions_append, remoteCalls_append, navigations, actions,
        remoteCalls]
  · cases hm : VariantB.recordMissing record with
    | error e =>
      simp [VariantB.rowClick, VariantB.onRowClicked, hm, navigations_append, actions_append,
        remoteCalls_append, navigations, actions, remoteCalls]
    | ok b =>
      cases b with
      | true =>
        simp [VariantB.rowClick, VariantB.onRowClicked, hm, navigations_append,
          actions_append, remoteCalls_append, navigations, actions, remoteCalls]
      | false =>
        cases hid : recordId record with
        | error e =>
          simp [VariantB.rowClick, VariantB.onRowClicked, hm, hid, navigations_append,
            actions_append, remoteCalls_append, navigations, actions, remoteCalls]
        | ok id =>
          simp [VariantB.rowClick, VariantB.onRowClicked, VariantB.onSaleResult, hm, hid, hne,
            navigations_append, actions_append, remoteCalls_append, navigations, actions,
            remoteCalls]

/-- Witness of C3: the order read of the row of order 7 resolves to an empty
list. -/
theorem empty_order_read_is_silent_witness :
    (VariantA.rowClick sampleRecord (.resolved (.rows [])) (.resolved sampleForms)
        emptyPage).dialog = none ∧
    (VariantB.rowClick sampleRecord (.resolved (.rows [])) (.resolved sampleForms)
        emptyPage).dialog = none ∧
    (VariantB.rowClick sampleRecord (.resolved (.rows [])) (.resolved sampleForms)
        emptyPage).world.body = [] :=
  have h := empty_order_read_is_silent sampleRecord (.rows []) (.resolved sampleForms)
    emptyPage (Or.inl rfl)
  ⟨h.1.1, h.2.1, h.2.2.1⟩

/-! ## The guard on the row record -/

theorem recordMissing_of_malformed (record : JSVal)
    (h : record = undefined ∨ record = null ∨
         getProp record "data" = .ok undefined ∨ getProp record "data" = .ok null ∨
         ∃ data, getProp record "data" = .ok data ∧
           (getProp data "id" = .ok undefined ∨ getProp data "id" = .ok null)) :
    VariantB.recordMissing record = .ok true := by
  unfold VariantB.recordMissing
  cases ht : truthy record with
  | false => simp
  | true =>
    rcases h with h | h | h | h | ⟨data, h, h2⟩
    · subst h; simp [truthy] at ht
    · subst h; simp [truthy] at ht
    · simp [h, truthy]
    · simp [h, truthy]
    · cases htd : truthy data with
      | false => simp [h, htd]
      | true =>
        rcases h2 with h2 | h2 <;> simp [h, htd, h2, truthy]

/-- C6: in the later variant, for every click whose row record is missing or
malformed (no record, a record without `data`, or `data` without `id`),
`_onRowClicked` returns after consuming the event: it issues no remote call,
brings up no dialog, assigns no browser location and dispatches no action,
whatever the server would have replied. -/
theorem malformed_record_is_ignored (record : JSVal) (sale form : Reply) (w : World)
    (h : record = undefined ∨ record = null ∨
         getProp record "data" = .ok undefined ∨ getProp record "data" = .ok null ∨
         ∃ data, getProp record "data" = .ok data ∧
           (getProp data "id" = .ok undefined ∨ getProp data "id" = .ok null)) :
    VariantB.onRowClicked record w =
      { world := (w.emit .preventDefault).emit .stopPropagation,
        threw := false, pending := false, dialog := none } ∧
    VariantB.rowClick record sale form w = VariantB.onRowClicked record w ∧
    remoteCalls (VariantB.rowClick record sale form w).world.log = remoteCalls w.log ∧
    (VariantB.rowClick record sale form w).world.body = w.body ∧
    (VariantB.rowClick record sale form w).dialog = none ∧
    navigations (VariantB.rowClick record sale form w).world.log = navigations w.log ∧
    actions (VariantB.rowClick record sale form w).world.log = actions w.log := by
  have hm := recordMissing_of_malformed record h
  have h1 : VariantB.onRowClicked record w =
      { world := (w.emit .preventDefault).emit .stopPropagation,
        threw := false, pending := false, dialog := none } := by
    simp [VariantB.onRowClicked, hm]
  have h2 : VariantB.rowClick record sale form w = VariantB.onRowClicked record w := by
    simp [VariantB.rowClick, h1]
  rw [h2, h1]
  simp [navigations_append, actions_append, remoteCalls_append, navigations, actions,
    remoteCalls]

/-- Witness of C6: a row record whose `data` carries no `id`. -/
theorem malformed_record_is_ignored_witness :
    remoteCalls (VariantB.rowClick (obj [("data", obj [("name", str "S00007")])])
      (.resolved sampleSale) (.resolved sampleForms) emptyPage).world.log = [] ∧
    (VariantB.rowClick (obj [("data", obj [("name", str "S00007")])])
      (.resolved sampleSale) (.resolved sampleForms) emptyPage).dialog = none :=
  have h := malformed_record_is_ignored (obj [("data", obj [("name", str "S00007")])])
    (.resolved sampleSale) (.resolved sampleForms) emptyPage
    (Or.inr (Or.inr (Or.inr (Or.inr ⟨obj [("name", str "S00007")], rfl, Or.inl rfl⟩))))
  ⟨h.2.2.1, h.2.2.2.2.1⟩

/-! ## The dialog and what it is handed -/

/-- C4: in both row-click variants, for a clicked row (its id read and truthy)
whose order read returns a record and whose linked-form query returns a list,
exactly one selection dialog is attached and shown, the `forms` value handed
to it is the list the query returned (same elements, same order), the query
was filtered by `sale_order_id = id` for the clicked row's id, and the dialog
offers one entry per returned form plus one "new" entry. -/
theorem dialog_gets_query_forms (record id : JSVal) (r : Record) (rest fs : List Record)
    (w : World) (hid : recordId record = .ok id) (ht : truthy id = true) :
    VariantA.rowClick record (.resolved (.rows (r :: rest))) (.resolved (.rows fs)) w =
      { world :=
          { body := w.body ++
              [{ template := "BusinessTripFormSelectionDialog",
                 context := obj [("sale_order", obj r), ("forms", arr (fs.map obj))],
                 shown := true }],
            log := w.log ++
              [.rpc "sale.order" "read" (arr [arr [id], arr [str "name", str "partner_id"]]),
               .rpc "formio.form" "search_read"
                 (arr [arr [arr [str "sale_order_id", str "=", id]],
                       arr [str "id", str "name", str "create_date"]])] },
        threw := false, pending := false, dialog := some w.body.length } ∧
    (∃ saleOrder, VariantB.saleOrderArg (.rows (r :: rest)) = .ok saleOrder ∧
      VariantB.rowClick record (.resolved (.rows (r :: rest))) (.resolved (.rows fs)) w =
        { world :=
            { body := w.body ++
                [{ template := "BusinessTripFormSelectionDialog",
                   context := obj [("sale_order", saleOrder), ("forms", arr (fs.map obj))],
                   shown := true }],
              log := w.log ++
                [.preventDefault, .stopPropagation,
                 .rpc "sale.order" "read"
                   (arr [arr [id], arr [str "name", str "partner_id", str "amount_total"]]),
                 .rpc "formio.form" "search_read"
                   (arr [arr [arr [str "sale_order_id", str "=", id]],
                         arr [str "id", str "name", str "create_date", str "state"]])] },
          threw := false, pending := false, dialog := some w.body.length } ∧
      dialogOptions (obj [("sale_order", saleOrder), ("forms", arr (fs.map obj))]) =
        (fs.map obj).map SelectOption.form ++ [SelectOption.createNew]) ∧
    dialogOptions (obj [("sale_order", obj r), ("forms", arr (fs.map obj))]) =
      (fs.map obj).map SelectOption.form ++ [SelectOption.createNew] := by
  have hm := recordMissing_of_recordId record id hid ht
  refine ⟨?_, ?_, rfl⟩
  · simp [VariantA.rowClick, VariantA.onRowClicked, VariantA.onSaleResult,
      VariantA.onFormResult, RpcResult.nonEmpty, RpcResult.first, RpcResult.toVal,
      World.showModal, World.emit, VariantA.saleReadArgs, VariantA.formSearchArgs, hid]
  · refine ⟨_, rfl, ?_, rfl⟩
    simp [VariantB.rowClick, VariantB.onRowClicked, VariantB.onSaleResult,
      VariantB.onFormResult, VariantB.saleOrderArg, RpcResult.nonEmpty, RpcResult.first,
      RpcResult.toVal, World.showModal, World.emit, VariantB.saleReadArgs,
      VariantB.formSearchArgs, hid, hm, getProp, JSVal.or, truthy]

/-- Witness of C4: the click on the row of order 7, with one order record and
two linked forms. -/
theorem dialog_gets_query_forms_witness :
    recordId sampleRecord = .ok (num 7) ∧ truthy (num 7) = true ∧
    ((VariantA.rowClick sampleRecord
        (.resolved (.rows [[("name", str "S00007")]]))
        (.resolved (.rows [[("id", num 41)], [("id", num 42)]])) emptyPage).world.body.map
      Modal.context) =
      [obj [("sale_order", obj [("name", str "S00007")]),
            ("forms", arr [obj [("id", num 41)], obj [("id", num 42)]])]] :=
  ⟨rfl, rfl, by
    rw [(dialog_gets_query_forms sampleRecord (num 7) [("name", str "S00007")] []
      [[("id", num 41)], [("id", num 42)]] emptyPage rfl rfl).1]
    rfl⟩

/-! ## The order summary handed to the dialog -/

/-- C7 fails as stated: the order read returns `partner_id: false` for an order
without a partner; the field is present, and the dialog is handed the default
`[0, '']` in its place. -/
theorem present_falsy_field_is_replaced :
    List.lookup "partner_id"
        [("name", str "S00007"), ("partner_id", bool false), ("amount_total", num 250)] =
      some (bool false) ∧
    VariantB.saleOrderArg
        (.rows [[("name", str "S00007"), ("partner_id", bool false), ("amount_total", num 250)]]) =
      .ok (obj [("name", str "S00007"), ("partner_id", arr [num 0, str ""]),
                ("amount_total", num 250)]) ∧
    bool false ≠ arr [num 0, str ""] :=
  ⟨rfl, rfl, fun h => JSVal.noConfusion h⟩

/-- C7, amended: in the later variant, for every non-empty order-read result,
the `sale_order` value handed to the dialog has exactly the fields `name`,
`partner_id` and `amount_total`, each equal to the fetched value when that
value is truthy, and equal to `''`, `[0, '']` and `0` respectively when the
fetched field is missing or falsy (`undefined`, `null`, `false`, `0`, `NaN`,
`''`). -/
theorem sale_order_defaults_falsy_fields (r : Record) (rest : List Record) :
    VariantB.saleOrderArg (.rows (r :: rest)) =
      .ok (obj
        [("name",
            if truthy ((List.lookup "name" r).getD undefined) = true
            then (List.lookup "name" r).getD undefined else str ""),
         ("partner_id",
            if truthy ((List.lookup "partner_id" r).getD undefined) = true
            then (List.lookup "partner_id" r).getD undefined else arr [num 0, str ""]),
         ("amount_total",
            if truthy ((List.lookup "amount_total" r).getD undefined) = true
            then (List.lookup "amount_total" r).getD undefined else num 0)]) := by
  rfl

/-! ## The two variants side by side -/

/-- C9 fails as stated: on the same row, replies and choice `'new'` the earlier
variant navigates to `/business_trip/start/7` and the later one to
`/business_trip/new/7`; and on a row whose id is `0` the earlier variant brings
up the dialog while the later one returns at its guard. -/
theorem variants_differ_on_new_path :
    navigations (VariantA.session sampleRecord (.resolved sampleSale) (.resolved sampleForms)
        (.confirm (str "new")) emptyPage).world.log = ["/business_trip/start/7"] ∧
    navigations (VariantB.session sampleRecord (.resolved sampleSale) (.resolved sampleForms)
        (.confirm (str "new")) emptyPage).world.log = ["/business_trip/new/7"] ∧
    navigations (VariantA.session sampleRecord (.resolved sampleSale) (.resolved sampleForms)
        (.confirm (str "new")) emptyPage).world.log ≠
      navigations (VariantB.session sampleRecord (.resolved sampleSale) (.resolved sampleForms)
        (.confirm (str "new")) emptyPage).world.log ∧
    (VariantA.rowClick (obj [("data", obj [("id", num 0)])]) (.resolved sampleSale)
        (.resolved sampleForms) emptyPage).dialog = some 0 ∧
    (VariantB.rowClick (obj [("data", obj [("id", num 0)])]) (.resolved sampleSale)
        (.resolved sampleForms) emptyPage).dialog = none := by
  refine ⟨by decide, by decide, by decide, by decide, by decide⟩

theorem nonEmpty_cons_or (saleResult : RpcResult) :
    saleResult.nonEmpty = false ∨ ∃ r rest, saleResult = .rows (r :: rest) := by
  cases saleResult with
  | undefined => exact Or.inl rfl
  | null => exact Or.inl rfl
  | rows rs =>
    cases rs with
    | nil => exact Or.inl rfl
    | cons r rest => exact Or.inr ⟨r, rest, rfl⟩

/-- C9, amended: for every row record whose id is read and truthy, every reply
to the order read and to the linked-form query and every choice, the two
variants agree on whether the dialog comes up, on the dialogs attached to the
page with their visibility, on the actions dispatched and on whether a
navigation happens; the target of that navigation is
`'/business_trip/start/' + id` in the earlier variant and
`'/business_trip/new/' + id` in the later one. -/
theorem variants_agree_up_to_new_path (record id : JSVal) (sale form : Reply) (c : Choice)
    (w : World) (hid : recordId record = .ok id) (ht : truthy id = true) :
    (VariantA.rowClick record sale form w).dialog =
      (VariantB.rowClick record sale form w).dialog ∧
    (VariantA.session record sale form c w).world.body.map
        (fun m => (m.template, m.shown)) =
      (VariantB.session record sale form c w).world.body.map
        (fun m => (m.template, m.shown)) ∧
    actions (VariantA.session record sale form c w).world.log =
      actions (VariantB.session record sale form c w).world.log ∧
    ∃ navigated : Bool,
      navigations (VariantA.session record sale form c w).world.log =
        navigations w.log ++
          (if navigated = true then ["/business_trip/start/" ++ toStr id] else []) ∧
      navigations (VariantB.session record sale form c w).world.log =
        navigations w.log ++
          (if navigated = true then ["/business_trip/new/" ++ toStr id] else []) := by
  have hm := recordMissing_of_recordId record id hid ht
  cases sale with
  | rejected =>
    refine ⟨?_, ?_, ?_, false, ?_, ?_⟩ <;>
    simp [VariantA.session, VariantB.session, VariantA.rowClick, VariantB.rowClick,
      VariantA.onRowClicked, VariantB.onRowClicked, hid, hm, navigations_append,
      actions_append, navigations, actions]
  | resolved saleResult =>
    rcases nonEmpty_cons_or saleResult with hne | ⟨r, rest, rfl⟩
    · refine ⟨?_, ?_, ?_, false, ?_, ?_⟩ <;>
      simp [VariantA.session, VariantB.session, VariantA.rowClick, VariantB.rowClick,
        VariantA.onRowClicked, VariantB.onRowClicked, VariantA.onSaleResult,
        VariantB.onSaleResult, hid, hm, hne, navigations_append, actions_append, navigations,
        actions]
    · cases form with
      | rejected =>
        refine ⟨?_, ?_, ?_, false, ?_, ?_⟩ <;>
        simp [VariantA.session, VariantB.session, VariantA.rowClick, VariantB.rowClick,
          VariantA.onRowClicked, VariantB.onRowClicked, VariantA.onSaleResult,
          VariantB.onSaleResult, RpcResult.nonEmpty, hid, hm, navigations_append,
          actions_append, navigations, actions]
      | resolved formResult =>
        have hA : VariantA.rowClick record (.resolved (.rows (r :: rest)))
            (.resolved formResult) w =
            { world :=
                { body := w.body ++
                    [{ template := "BusinessTripFormSelectionDialog",
                       context := obj [("sale_order", obj r), ("forms", formResult.toVal)],
                       shown := true }],
                  log := w.log ++
                    [.rpc "sale.order" "read" (VariantA.saleReadArgs id),
                     .rpc "formio.form" "search_read" (VariantA.formSearchArgs id)] },
              threw := false, pending := false, dialog := some w.body.length } := by
          simp [VariantA.rowClick, VariantA.onRowClicked, VariantA.onSaleResult,
            VariantA.onFormResult, RpcResult.nonEmpty, RpcResult.first, World.showModal,
            World.emit, hid]
        obtain ⟨so, hso⟩ : ∃ so, VariantB.saleOrderArg (.rows (r :: rest)) = .ok so :=
          ⟨_, rfl⟩
        have hB : VariantB.rowClick record (.resolved (.rows (r :: rest)))
            (.resolved formResult) w =
            { world :=
                { body := w.body ++
                    [{ template := "BusinessTripFormSelectionDialog",
                       context := obj [("sale_order", so),
                                       ("forms", JSVal.or formResult.toVal (arr []))],
                       shown := true }],
                  log := w.log ++
                    [.preventDefault, .stopPropagation,
                     .rpc "sale.order" "read" (VariantB.saleReadArgs id),
                     .rpc "formio.form" "search_read" (VariantB.formSearchArgs id)] },
              threw := false, pending := false, dialog := some w.body.length } := by
          simp [VariantB.rowClick, VariantB.onRowClicked, VariantB.onSaleResult,
            VariantB.onFormResult, RpcResult.nonEmpty, World.showModal, World.emit, hid, hm,
            hso]
        cases c with
        | cancel =>
          refine ⟨by rw [hA, hB], ?_, ?_, false, ?_, ?_⟩ <;>
          simp [VariantA.session, VariantB.session, hA, hB, runChoice, VariantA.onCancel,
            VariantB.onCancel, hideAt_append_last, navigations_append, actions_append,
            navigations, actions]
        | confirm sel =>
          cases hsel : strictEqStr sel "new" with
          | true =>
            refine ⟨by rw [hA, hB], ?_, ?_, true, ?_, ?_⟩ <;>
            simp [VariantA.session, VariantB.session, hA, hB, runChoice, VariantA.onConfirm,
              VariantB.onConfirm, hsel, hid, concat, hideAt_append_last, navigations_append,
              actions_append, navigations, actions]
          | false =>
            refine ⟨by rw [hA, hB], ?_, ?_, false, ?_, ?_⟩ <;>
            simp [VariantA.session, VariantB.session, hA, hB, runChoice, VariantA.onConfirm,
              VariantB.onConfirm, hsel, hideAt_append_last, navigations_append,
              actions_append, navigations, actions]

/-- Witness of C9, amended: the row of order 7 with the choice of form 41. -/
theorem variants_agree_up_to_new_path_witness :
    recordId sampleRecord = .ok (num 7) ∧ truthy (num 7) = true ∧
    actions (VariantA.session sampleRecord (.resolved sampleSale) (.resolved sampleForms)
        (.confirm (str "41")) emptyPage).world.log =
      actions (VariantB.session sampleRecord (.resolved sampleSale) (.resolved sampleForms)
        (.confirm (str "41")) emptyPage).world.log :=
  ⟨rfl, rfl, (variants_agree_up_to_new_path sampleRecord (num 7) (.resolved sampleSale)
    (.resolved sampleForms) (.confirm (str "41")) emptyPage rfl rfl).2.2.1⟩

/-! ## Lifetime of a dialog -/

theorem runChoices_hidden (onConfirm : JSVal → World → Step) (onCancel : World → Step)
    (dlg : Nat)
    (hh : ∀ c w, (runChoice onConfirm onCancel c w).world.body = hideAt dlg w.body) :
    ∀ (cs : List Choice) (w : World), dlg < w.body.length →
      (cs ≠ [] ∨ shownAt w dlg = some false) →
      shownAt (runChoices onConfirm onCancel cs w) dlg = some false ∧
      (runChoices onConfirm onCancel cs w).body.length = w.body.length := by
  intro cs
  induction cs with
  | nil =>
    intro w _ h
    rcases h with h | h
    · exact absurd rfl h
    · exact ⟨h, rfl⟩
  | cons c cs ih =>
    intro w hlt _
    have hb := hh c w
    have hlen : (runChoice onConfirm onCancel c w).world.body.length = w.body.length := by
      rw [hb, hideAt_length]
    have hs : shownAt (runChoice onConfirm onCancel c w).world dlg = some false := by
      have := hideAt_shown dlg w.body hlt
      simpa [shownAt, hb] using this
    have := ih (runChoice onConfirm onCancel c w).world (by omega) (Or.inr hs)
    simpa [runChoices, hlen] using this

theorem chooseAll_hidden (dlg : Nat) :
    ∀ (cs : List RequestType.TypeChoice) (w : World), dlg < w.body.length →
      (cs ≠ [] ∨ shownAt w dlg = some false) →
      shownAt (RequestType.chooseAll dlg cs w) dlg = some false ∧
      (RequestType.chooseAll dlg cs w).body.length = w.body.length := by
  intro cs
  induction cs with
  | nil =>
    intro w _ h
    rcases h with h | h
    · exact absurd rfl h
    · exact ⟨h, rfl⟩
  | cons c cs ih =>
    intro w hlt _
    have hb : (RequestType.choose dlg c w).world.body = hideAt dlg w.body := by
      cases c <;> rfl
    have hlen : (RequestType.choose dlg c w).world.body.length = w.body.length := by
      rw [hb, hideAt_length]
    have hs : shownAt (RequestType.choose dlg c w).world dlg = some false := by
      have := hideAt_shown dlg w.body hlt
      simpa [shownAt, hb] using this
    have := ih (RequestType.choose dlg c w).world (by omega) (Or.inr hs)
    simpa [RequestType.chooseAll, hlen] using this

theorem choiceA_hides (record id : JSVal) (dlg : Nat) (hid : recordId record = .ok id)
    (c : Choice) (w : World) :
    (runChoice (VariantA.onConfirm record dlg) (VariantA.onCancel dlg) c w).world.body =
      hideAt dlg w.body := by
  cases c with
  | cancel => rfl
  | confirm sel =>
    cases hsel : strictEqStr sel "new" <;>
    simp [runChoice, VariantA.onConfirm, hsel, hid]

theorem choiceB_hides (record : JSVal) (dlg : Nat) (c : Choice) (w : World) :
    (runChoice (VariantB.onConfirm record dlg) (VariantB.onCancel dlg) c w).world.body =
      hideAt dlg w.body := by
  cases c with
  | cancel => rfl
  | confirm sel =>
    cases hsel : strictEqStr sel "new" with
    | false => simp [runChoice, VariantB.onConfirm, hsel]
    | true =>
      cases hid : recordId record <;> simp [runChoice, VariantB.onConfirm, hsel, hid]

theorem rowClickA_cases (record : JSVal) (sale form : Reply) (w : World) :
    ((VariantA.rowClick record sale form w).dialog = none ∧
      (VariantA.rowClick record sale form w).world.body = w.body) ∨
    ∃ m id, recordId record = .ok id ∧ m.shown = true ∧
      (VariantA.rowClick record sale form w).dialog = some w.body.length ∧
      (VariantA.rowClick record sale form w).world.body = w.body ++ [m] := by
  cases hid : recordId record with
  | error e => left; simp [VariantA.rowClick, VariantA.onRowClicked, hid]
  | ok id =>
    cases sale with
    | rejected => left; simp [VariantA.rowClick, VariantA.onRowClicked, hid]
    | resolved saleResult =>
      rcases nonEmpty_cons_or saleResult with hne | ⟨r, rest, rfl⟩
      · left
        simp [VariantA.rowClick, VariantA.onRowClicked, VariantA.onSaleResult, hid, hne]
      · cases form with
        | rejected =>
          left
          simp [VariantA.rowClick, VariantA.onRowClicked, VariantA.onSaleResult,
            RpcResult.nonEmpty, hid]
        | resolved formResult =>
          right
          refine ⟨{ template := "BusinessTripFormSelectionDialog",
                    context := obj [("sale_order", obj r), ("forms", formResult.toVal)],
                    shown := true }, id, rfl, rfl, ?_, ?_⟩ <;>
          simp [VariantA.rowClick, VariantA.onRowClicked, VariantA.onSaleResult,
            VariantA.onFormResult, RpcResult.nonEmpty, RpcResult.first, World.showModal, hid]

theorem rowClickB_cases (record : JSVal) (sale form : Reply) (w : World) :
    ((VariantB.rowClick record sale form w).dialog = none ∧
      (VariantB.rowClick record sale form w).world.body = w.body) ∨
    ∃ m, m.shown = true ∧
      (VariantB.rowClick record sale form w).dialog = some w.body.length ∧
      (VariantB.rowClick record sale form w).world.body = w.body ++ [m] := by
  cases hm : VariantB.recordMissing record with
  | error e => left; simp [VariantB.rowClick, VariantB.onRowClicked, hm]
  | ok b =>
    cases b with
    | true => left; simp [VariantB.rowClick, VariantB.onRowClicked, hm]
    | false =>
      cases hid : recordId record with
      | error e => left; simp [VariantB.rowClick, VariantB.onRowClicked, hm, hid]
      | ok id =>
        cases sale with
        | rejected => left; simp [VariantB.rowClick, VariantB.onRowClicked, hm, hid]
        | resolved saleResult =>
          rcases nonEmpty_cons_or saleResult with hne | ⟨r, rest, rfl⟩
          · left
            simp [VariantB.rowClick, VariantB.onRowClicked, VariantB.onSaleResult, hm, hid,
              hne]
          · cases form with
            | rejected =>
              left
              simp [VariantB.rowClick, VariantB.onRowClicked, VariantB.onSaleResult,
                RpcResult.nonEmpty, hm, hid]
            | resolved formResult =>
              right
              obtain ⟨so, hso⟩ : ∃ so, VariantB.saleOrderArg (.rows (r :: rest)) = .ok so :=
                ⟨_, rfl⟩
              refine ⟨{ template := "BusinessTripFormSelectionDialog",
                        context := obj [("sale_order", so),
                                        ("forms", JSVal.or formResult.toVal (arr []))],
                        shown := true }, rfl, ?_, ?_⟩ <;>
              simp [VariantB.rowClick, VariantB.onRowClicked, VariantB.onSaleResult,
                VariantB.onFormResult, RpcResult.nonEmpty, World.showModal, hm, hid, hso]

/-- C10 fails as stated: after the cancel handler, after the confirm handler
and after a type button, the dialog element is still attached to the page
body, hidden: nothing removes it. -/
theorem dialog_stays_attached :
    (VariantB.session sampleRecord (.resolved sampleSale) (.resolved sampleForms) .cancel
        emptyPage).world.body.map (fun m => (m.template, m.shown)) =
      [("BusinessTripFormSelectionDialog", false)] ∧
    (VariantA.session sampleRecord (.resolved sampleSale) (.resolved sampleForms)
        (.confirm (str "41")) emptyPage).world.body.map (fun m => (m.template, m.shown)) =
      [("BusinessTripFormSelectionDialog", false)] ∧
    (RequestType.choose 0 .standalone
        (RequestType.clickCreate (RequestType.renderButtons true) emptyPage).1).world.body.map
        (fun m => (m.template, m.shown)) =
      [("BusinessTripRequestTypeDialog", false)] := by
  refine ⟨by decide, by decide, by decide⟩

/-- C10, amended: for all three controllers, one trigger (a row click or a
click on the create button) attaches at most one dialog, shown; after every
choice of the user, and after every further handler run on that dialog, the
dialog is hidden, and its element stays attached to the page body. -/
theorem dialog_hidden_after_choice (record : JSVal) (sale form : Reply) (w : World)
    (c : Choice) (cs : List Choice) (hasButtons : Bool) (t : RequestType.TypeChoice)
    (ts : List RequestType.TypeChoice) :
    (((VariantA.rowClick record sale form w).dialog = none ∧
        (VariantA.rowClick record sale form w).world.body = w.body) ∨
      ∃ m, m.shown = true ∧
        (VariantA.rowClick record sale form w).dialog = some w.body.length ∧
        (VariantA.rowClick record sale form w).world.body = w.body ++ [m] ∧
        shownAt (runChoices (VariantA.onConfirm record w.body.length)
            (VariantA.onCancel w.body.length) (c :: cs)
            (VariantA.rowClick record sale form w).world) w.body.length = some false ∧
        (runChoices (VariantA.onConfirm record w.body.length)
            (VariantA.onCancel w.body.length) (c :: cs)
            (VariantA.rowClick record sale form w).world).body.length = w.body.length + 1) ∧
    (((VariantB.rowClick record sale form w).dialog = none ∧
        (VariantB.rowClick record sale form w).world.body = w.body) ∨
      ∃ m, m.shown = true ∧
        (VariantB.rowClick record sale form w).dialog = some w.body.length ∧
        (VariantB.rowClick record sale form w).world.body = w.body ++ [m] ∧
        shownAt (runChoices (VariantB.onConfirm record w.body.length)
            (VariantB.onCancel w.body.length) (c :: cs)
            (VariantB.rowClick record sale form w).world) w.body.length = some false ∧
        (runChoices (VariantB.onConfirm record w.body.length)
            (VariantB.onCancel w.body.length) (c :: cs)
            (VariantB.rowClick record sale form w).world).body.length = w.body.length + 1) ∧
    (RequestType.clickCreate (RequestType.renderButtons hasButtons) w = (w, []) ∨
      ∃ m, m.shown = true ∧
        RequestType.clickCreate (RequestType.renderButtons hasButtons) w =
          ({ body := w.body ++ [m], log := w.log }, [w.body.length]) ∧
        shownAt (RequestType.chooseAll w.body.length (t :: ts)
            { body := w.body ++ [m], log := w.log }) w.body.length = some false ∧
        (RequestType.chooseAll w.body.length (t :: ts)
            { body := w.body ++ [m], log := w.log }).body.length = w.body.length + 1) := by
  refine ⟨?_, ?_, ?_⟩
  · rcases rowClickA_cases record sale form w with h | ⟨m, id, hid, hm, hd, hb⟩
    · exact Or.inl h
    · right
      have hlt : w.body.length < (VariantA.rowClick record sale form w).world.body.length := by
        rw [hb]; simp
      have := runChoices_hidden _ _ w.body.length (choiceA_hides record id w.body.length hid)
        (c :: cs) (VariantA.rowClick record sale form w).world hlt (Or.inl (by simp))
      refine ⟨m, hm, hd, hb, this.1, ?_⟩
      rw [this.2, hb]; simp
  · rcases rowClickB_cases record sale form w with h | ⟨m, hm, hd, hb⟩
    · exact Or.inl h
    · right
      have hlt : w.body.length < (VariantB.rowClick record sale form w).world.body.length := by
        rw [hb]; simp
      have := runChoices_hidden _ _ w.body.length (choiceB_hides record w.body.length)
        (c :: cs) (VariantB.rowClick record sale form w).world hlt (Or.inl (by simp))
      refine ⟨m, hm, hd, hb, this.1, ?_⟩
      rw [this.2, hb]; simp
  · cases hasButtons with
    | false => exact Or.inl rfl
    | true =>
      right
      refine ⟨{ template := "BusinessTripRequestTypeDialog", context := obj [],
                shown := true }, rfl, rfl, ?_⟩
      have := chooseAll_hidden w.body.length (t :: ts)
        { body := w.body ++ [{ template := "BusinessTripRequestTypeDialog", context := obj [],
                               shown := true }], log := w.log } (by simp) (Or.inl (by simp))
      refine ⟨this.1, ?_⟩
      rw [this.2]; simp

end BusinessTrip
